import Mathlib

/-!
Verification development for the JSON-RPC subprocess harness
`src/interact_mcp.py` of the diabetactic/diabetify repository.

The harness spawns a child process, exchanges newline-delimited JSON-RPC
messages with it, and drives a fixed conversation:
handshake -> initialize -> list devices -> capture a screenshot.

This file shallow-embeds the parts of the script that the specification's
claims are about:

* JSON values (`JVal`) stand for the Python values produced by
  `json.loads` and consumed by `json.dumps`;
* Python-level operations used by the script (`'k' in x`, `x['k']`,
  `x[0]`, truthiness) are embedded with their exception behavior
  (`PyExc`), since the script's error handling is part of the claims;
* `send_message` is embedded as the byte string it writes
  (the script writes `message_str + '\x5c\x5cn'`, a PYTHON TWO-CHARACTER
  literal: a backslash followed by the letter n, not a newline);
* the handshake `while` loop, the three-step conversation of `main`, and
  the `finally` shutdown block are embedded as executable functions over
  an explicit model of the child's observable behavior.
-/

/-- JSON values, as produced by Python's `json.loads` (restricted to the
integer fragment of JSON numbers, which is all the script ever exchanges). -/
inductive JVal where
  | jnull : JVal
  | jbool : Bool → JVal
  | jnum : Int → JVal
  | jstr : String → JVal
  | jarr : List JVal → JVal
  | jobj : List (String × JVal) → JVal
deriving Repr

/-- Key lookup in a Python dict modelled as an association list
(first binding wins; `json.loads` never produces duplicate keys). -/
def lookupKV : List (String × JVal) → String → Option JVal
  | [], _ => none
  | (k, v) :: rest, key => if k = key then some v else lookupKV rest key

/-- Python truthiness (`bool(x)`) of a JSON-decoded value:
`None`, `False`, `0`, `""`, `[]` and the empty dict are falsy. -/
def pyTruthy : JVal → Bool
  | .jnull => false
  | .jbool b => b
  | .jnum n => n != 0
  | .jstr s => s != ""
  | .jarr xs => !xs.isEmpty
  | .jobj kvs => !kvs.isEmpty

/-- JSON string escaping as performed by `json.dumps` on the ASCII
strings the script uses (quote, backslash and the common control chars). -/
def escChar : Char → String
  | '"' => "\\\""
  | '\\' => "\\\\"
  | '\n' => "\\n"
  | '\t' => "\\t"
  | '\r' => "\\r"
  | c => String.mk [c]

/-- Escape every character of a string for JSON output. -/
def escString (s : String) : String := String.join (s.toList.map escChar)

/-- Decimal rendering of a Python integer, as `json.dumps` prints it. -/
def intRepr (n : Int) : String :=
  if n < 0 then "-" ++ Nat.repr n.natAbs else Nat.repr n.natAbs

mutual

/-- Serialization of a value by Python's `json.dumps` with its default
separators `", "` and `": "`, keeping dict insertion order
(`sort_keys=False`, the default used by the script). -/
def dumps : JVal → String
  | .jnull => "null"
  | .jbool true => "true"
  | .jbool false => "false"
  | .jnum n => intRepr n
  | .jstr s => "\"" ++ escString s ++ "\""
  | .jarr xs => "[" ++ dumpsElems xs ++ "]"
  | .jobj kvs => "\x7b" ++ dumpsMembers kvs ++ "\x7d"

/-- Comma-separated serialization of JSON array elements. -/
def dumpsElems : List JVal → String
  | [] => ""
  | [x] => dumps x
  | x :: y :: rest => dumps x ++ ", " ++ dumpsElems (y :: rest)

/-- Comma-separated serialization of JSON object members. -/
def dumpsMembers : List (String × JVal) → String
  | [] => ""
  | [(k, v)] => "\"" ++ escString k ++ "\": " ++ dumps v
  | (k, v) :: m :: rest =>
      "\"" ++ escString k ++ "\": " ++ dumps v ++ ", " ++ dumpsMembers (m :: rest)

end

/-- Observable effect of one `send_message` call: the bytes written to the
child's stdin and whether the stream was flushed right after the write. -/
structure SendEffect where
  bytes : String
  flushed : Bool
deriving DecidableEq, Repr

/-- Embedding of `send_message` (src/interact_mcp.py lines 19-24).
The script computes `json.dumps(message)` and then writes
`(message_str + '\x5c\x5cn').encode('utf-8')`: the Python string literal
`'\x5c\x5cn'` denotes the TWO characters backslash and `n`, so that is what
is appended — not a newline. `proc.stdin.flush()` is called immediately
after the write. -/
def send_message (message : JVal) : SendEffect :=
  ⟨dumps message ++ "\\n", true⟩

/-- Request sent by the initialize step (src/interact_mcp.py lines 68-75). -/
def init_request : JVal :=
  .jobj [("jsonrpc", .jstr "2.0"),
         ("method", .jstr "initialize"),
         ("params", .jobj [("clientInfo", .jobj [("name", .jstr "python-script")])]),
         ("id", .jnum 0)]

/-- Request sent by the device-listing step (src/interact_mcp.py lines 82-90). -/
def list_devices_request : JVal :=
  .jobj [("jsonrpc", .jstr "2.0"),
         ("method", .jstr "tool/call"),
         ("params", .jobj [("name", .jstr "mobile_list_available_devices"),
                           ("input", .jobj [])]),
         ("id", .jnum 1)]

/-- Request sent by the capture step for a chosen device id
(src/interact_mcp.py lines 102-110); the id is whatever Python value was
extracted from the device list. -/
def screenshot_request (deviceId : JVal) : JVal :=
  .jobj [("jsonrpc", .jstr "2.0"),
         ("method", .jstr "tool/call"),
         ("params", .jobj [("name", .jstr "mobile_take_screenshot"),
                           ("input", .jobj [("device", deviceId)])]),
         ("id", .jnum 2)]

/-- Python exceptions that the script can raise (and, for `timeoutExpired`,
that `subprocess.Popen.wait(timeout=...)` raises in the `finally` block). -/
inductive PyExc where
  | timeoutError
  | jsonDecodeError
  | typeError
  | keyError : String → PyExc
  | indexError
  | attributeError
  | runtimeError : String → PyExc
  | binasciiError
  | timeoutExpired
deriving DecidableEq, Repr

/-- Substring test on character lists, used to model Python's
`needle in haystack` for strings. -/
def charSub (needle : List Char) : List Char → Bool
  | [] => needle.isEmpty
  | c :: rest => needle.isPrefixOf (c :: rest) || charSub needle rest

/-- Python membership test `key in x` on a JSON-decoded value `x`:
key lookup on dicts, element equality on lists, substring test on strings,
and a `TypeError` on values that are not containers (`None`, booleans,
numbers). -/
def pyContainsV (key : String) : JVal → Except PyExc Bool
  | .jobj kvs => .ok (lookupKV kvs key).isSome
  | .jarr xs => .ok (xs.any (fun v => match v with | .jstr t => t == key | _ => false))
  | .jstr s => .ok (charSub key.toList s.toList)
  | _ => .error .typeError

/-- Membership test `key in x` where `x` may be Python `None` (the
end-of-stream sentinel returned by `read_message`): `key in None` raises
`TypeError: argument of type 'NoneType' is not iterable`. -/
def pyContains (key : String) : Option JVal → Except PyExc Bool
  | none => .error .typeError
  | some j => pyContainsV key j

/-- Python subscript `x[key]` with a string key: dict lookup
(`KeyError` when absent), `TypeError` on lists, strings and non-containers. -/
def pySubscriptStr (j : JVal) (key : String) : Except PyExc JVal :=
  match j with
  | .jobj kvs =>
      match lookupKV kvs key with
      | some v => .ok v
      | none => .error (.keyError key)
  | _ => .error .typeError

/-- Python subscript `x[i]` with a nonnegative integer index: list and
string indexing (`IndexError` out of range), `KeyError` on dicts without
that integer key (JSON objects only have string keys), `TypeError`
otherwise. -/
def pySubscriptNat (j : JVal) (i : Nat) : Except PyExc JVal :=
  match j with
  | .jarr xs =>
      match xs.get? i with
      | some v => .ok v
      | none => .error .indexError
  | .jobj _ => .error (.keyError (Nat.repr i))
  | .jstr s =>
      match s.toList.get? i with
      | some c => .ok (.jstr (String.mk [c]))
      | none => .error .indexError
  | _ => .error .typeError

/-- Outcome of one `read_message` call on the child's stdout
(src/interact_mcp.py lines 26-36), abstracted by what the stream offers:
`timeout` - `select` reports nothing within the bound, so the function
raises `TimeoutError`; `eof` - the stream is readable but `readline`
returns the empty string (child closed its output), and the function
returns the sentinel `None`; `badLine` - a line arrives that is not valid
JSON, so `json.loads` raises; `msg j` - a line arrives and parses to `j`. -/
inductive ReadResult where
  | timeout
  | eof
  | badLine
  | msg : JVal → ReadResult
deriving Repr

/-- Embedding of `read_message`: the value it returns, or the exception it
raises, for each behavior of the child's output stream. -/
def read_message : ReadResult → Except PyExc (Option JVal)
  | .timeout => .error .timeoutError
  | .eof => .ok none
  | .badLine => .error .jsonDecodeError
  | .msg j => .ok (some j)

/-- Decision taken by one iteration of the handshake `while` loop. -/
inductive HandshakeDecision where
  | complete
  | repeatWait
deriving DecidableEq, Repr

/-- Log line printed when a non-`server_info` message (or the end-of-stream
sentinel) is observed during the handshake. -/
def waitingLog : String := "Waiting for server_info..."

/-- Log line printed when `server_info` is received during the handshake. -/
def serverInfoLog : String := "Received server_info, proceeding with initialization."

/-- Log line printed when the handshake read times out. -/
def noMessageLog : String := "No message from server, assuming it\x27s ready for initialization."

/-- Embedding of one iteration of the handshake loop
(src/interact_mcp.py lines 55-65).  A `TimeoutError` from `read_message`
is caught and completes the handshake; `initial_message and
initial_message.get("method") == "server_info"` completes it when the
message is a truthy dict whose `method` is `server_info`; a falsy value
(including the `None` end-of-stream sentinel) or a dict without that
method logs and repeats; a truthy non-dict has no `.get` attribute, so the
loop raises `AttributeError`; a non-JSON line raises out of `json.loads`.
Neither of the latter two is caught by the loop's `except TimeoutError`.
This helper decides the truthy-dict case: complete on
`method == "server_info"`, otherwise log and repeat. -/
def handshakeObjStep (kvs : List (String × JVal)) : HandshakeDecision × String :=
  match lookupKV kvs "method" with
  | some (.jstr m) =>
      if m = "server_info" then (.complete, serverInfoLog)
      else (.repeatWait, waitingLog)
  | _ => (.repeatWait, waitingLog)

/-- Embedding of the decision taken by one handshake iteration on one
read outcome, as described on `handshakeObjStep`: a caught `TimeoutError`
completes the handshake; the truthy-dict case defers to
`handshakeObjStep`; falsy values (including the `None` sentinel) log and
repeat; a truthy non-dict raises `AttributeError`; an invalid JSON line
raises `json.JSONDecodeError`. -/
def handshakeStep : ReadResult → Except PyExc (HandshakeDecision × String)
  | .timeout => .ok (.complete, noMessageLog)
  | .eof => .ok (.repeatWait, waitingLog)
  | .badLine => .error .jsonDecodeError
  | .msg j =>
      if pyTruthy j then
        match j with
        | .jobj kvs => .ok (handshakeObjStep kvs)
        | _ => .error .attributeError
      else .ok (.repeatWait, waitingLog)

/-- Behavior of the child's stdout over a whole run: a finite list of
read outcomes, after which the stream is either closed (`closed = true`,
every further read sees end-of-stream) or silent but open (every further
read times out). -/
structure ChildOutput where
  events : List ReadResult
  closed : Bool

/-- Read outcome at position `i` of a finite event list, with a default
for every position past the end. -/
def readsFrom : List ReadResult → ReadResult → Nat → ReadResult
  | [], d, _ => d
  | r :: _, _, 0 => r
  | _ :: rs, d, n + 1 => readsFrom rs d n

/-- Read outcome the child's stdout offers to the `i`-th `read_message`
call of the run. -/
def readAt (co : ChildOutput) (i : Nat) : ReadResult :=
  readsFrom co.events (if co.closed then .eof else .timeout) i

/-- Result of running the handshake loop with a fuel bound: either the
fuel ran out (the loop is still running), or an uncaught exception left
the loop, or the loop completed, telling which read the conversation
continues from and what was logged. -/
inductive HsOut where
  | outOfFuel
  | raised : PyExc → List String → HsOut
  | done : Nat → List String → HsOut
deriving Repr

/-- Embedding of the handshake `while True` loop: iterate `handshakeStep`
on successive reads, accumulating log lines, bounded by fuel. -/
def handshakeAux (co : ChildOutput) : Nat → Nat → List String → HsOut
  | 0, _, _ => .outOfFuel
  | fuel + 1, i, acc =>
      match handshakeStep (readAt co i) with
      | .error e => .raised e acc
      | .ok (.complete, l) => .done (i + 1) (acc ++ [l])
      | .ok (.repeatWait, l) => handshakeAux co fuel (i + 1) (acc ++ [l])

/-- Proposition that the handshake loop terminates normally (completes and
falls through to initialization) on a given child-output behavior. -/
def hsCompletes (co : ChildOutput) : Prop :=
  ∃ fuel i logs, handshakeAux co fuel 0 [] = .done i logs

/-- Read outcomes on which one handshake iteration neither raises nor
completes abnormally: anything except an invalid JSON line and a truthy
non-dict message (those two escape the loop by an uncaught exception). -/
def hsBenign : ReadResult → Bool
  | .timeout => true
  | .eof => true
  | .badLine => false
  | .msg (.jobj _) => true
  | .msg j => !pyTruthy j

/-- Character of the standard base64 alphabet for a sextet value
(A-Z, a-z, 0-9, then + and /), as used by Python's `base64` module. -/
def alphaChar (n : Nat) : Char :=
  if n < 26 then Char.ofNat (65 + n)
  else if n < 52 then Char.ofNat (71 + n)
  else if n < 62 then Char.ofNat (n - 4)
  else if n = 62 then '+' else '/'

/-- Sextet value of a base64 alphabet character, `none` outside the
alphabet. -/
def decChar (c : Char) : Option Nat :=
  if 'A' ≤ c ∧ c ≤ 'Z' then some (c.toNat - 65)
  else if 'a' ≤ c ∧ c ≤ 'z' then some (c.toNat - 71)
  else if '0' ≤ c ∧ c ≤ '9' then some (c.toNat + 4)
  else if c = '+' then some 62
  else if c = '/' then some 63
  else none

/-- Standard base64 encoding of a byte list (RFC 4648, the algorithm of
Python's `base64.b64encode`): groups of three bytes become four alphabet
characters; a trailing group of one or two bytes is padded with `=`. -/
def b64encodeAux : List Nat → List Char
  | [] => []
  | [a] => [alphaChar (a / 4), alphaChar (a % 4 * 16), '=', '=']
  | [a, b] => [alphaChar (a / 4), alphaChar (a % 4 * 16 + b / 16), alphaChar (b % 16 * 4), '=']
  | a :: b :: c :: rest =>
      alphaChar (a / 4) :: alphaChar (a % 4 * 16 + b / 16) ::
      alphaChar (b % 16 * 4 + c / 64) :: alphaChar (c % 64) :: b64encodeAux rest

/-- Base64 encoding at the string level. -/
def b64encode (bs : List Nat) : String := String.mk (b64encodeAux bs)

/-- Standard base64 decoding on characters: four characters yield three
bytes; `=` padding at the end yields one or two bytes; anything else
(wrong length, padding not at the end, characters outside the alphabet)
fails, as `base64.b64decode` fails with `binascii.Error` on such input
made only of alphabet and padding characters. -/
def b64decodeAux : List Char → Option (List Nat)
  | [] => some []
  | w :: x :: y :: z :: rest =>
      if z = '=' ∧ rest = [] then
        match decChar w, decChar x with
        | some sw, some sx =>
            if y = '=' then some [sw * 4 + sx / 16]
            else
              match decChar y with
              | some sy => some [sw * 4 + sx / 16, sx % 16 * 16 + sy / 4]
              | none => none
        | _, _ => none
      else
        match decChar w, decChar x, decChar y, decChar z with
        | some sw, some sx, some sy, some sz =>
            match b64decodeAux rest with
            | some bs => some ((sw * 4 + sx / 16) :: (sx % 16 * 16 + sy / 4) :: (sy % 4 * 64 + sz) :: bs)
            | none => none
        | _, _, _, _ => none
  | _ => none

/-- Base64 decoding at the string level. -/
def b64decode (s : String) : Option (List Nat) := b64decodeAux s.toList

/-- Whitespace characters that `json.loads` skips between tokens. -/
def isWsChar (c : Char) : Bool := c = ' ' || c = '\n' || c = '\t' || c = '\r'

/-- Drop leading JSON whitespace. -/
def skipWs : List Char → List Char
  | [] => []
  | c :: cs => if isWsChar c then skipWs cs else c :: cs

/-- Decode one JSON string escape character (the short escapes; the
strings the script exchanges use no `\u` escapes). -/
def escDecode (e : Char) : Option Char :=
  if e = 'n' then some '\n'
  else if e = 't' then some '\t'
  else if e = 'r' then some '\r'
  else if e = '"' then some e
  else if e = '\\' then some e
  else if e = '/' then some e
  else if e = 'b' then some (Char.ofNat 8)
  else if e = 'f' then some (Char.ofNat 12)
  else none

/-- Parse the body of a JSON string after the opening quote, returning the
decoded characters and the input after the closing quote. -/
def parseStrAux : List Char → Option (List Char × List Char)
  | [] => none
  | '"' :: rest => some ([], rest)
  | '\\' :: e :: rest =>
      match escDecode e, parseStrAux rest with
      | some c, some (s, r) => some (c :: s, r)
      | _, _ => none
  | c :: rest =>
      match parseStrAux rest with
      | some (s, r) => some (c :: s, r)
      | none => none

/-- Character in the ASCII digit range. -/
def isDigitChar (c : Char) : Bool := decide ('0' ≤ c) && decide (c ≤ '9')

/-- Consume a run of decimal digits, accumulating their value. -/
def parseDigitsAux : List Char → Nat → Nat × List Char
  | [], acc => (acc, [])
  | c :: cs, acc =>
      if isDigitChar c then parseDigitsAux cs (acc * 10 + (c.toNat - 48))
      else (acc, c :: cs)

mutual

/-- Recursive-descent JSON parsing, modelling Python's `json.loads` on the
fragment the script exchanges (objects, arrays, strings, integers,
literals); fuel bounds the recursion and is chosen large enough for the
whole input in `loads`. -/
def parseVal : Nat → List Char → Option (JVal × List Char)
  | 0, _ => none
  | fuel + 1, cs =>
      match skipWs cs with
      | [] => none
      | c :: cs' =>
          if c = '"' then
            match parseStrAux cs' with
            | some (s, r) => some (.jstr (String.mk s), r)
            | none => none
          else if c = '[' then
            match skipWs cs' with
            | ']' :: r => some (.jarr [], r)
            | cs'' =>
                match parseArrElems fuel cs'' with
                | some (vs, r) => some (.jarr vs, r)
                | none => none
          else if c = '\x7b' then
            match skipWs cs' with
            | '\x7d' :: r => some (.jobj [], r)
            | cs'' =>
                match parseObjMembers fuel cs'' with
                | some (ms, r) => some (.jobj ms, r)
                | none => none
          else if c = 't' then
            match cs' with
            | 'r' :: 'u' :: 'e' :: r => some (.jbool true, r)
            | _ => none
          else if c = 'f' then
            match cs' with
            | 'a' :: 'l' :: 's' :: 'e' :: r => some (.jbool false, r)
            | _ => none
          else if c = 'n' then
            match cs' with
            | 'u' :: 'l' :: 'l' :: r => some (.jnull, r)
            | _ => none
          else if c = '-' then
            match cs' with
            | d :: _ =>
                if isDigitChar d then
                  let (n, r) := parseDigitsAux cs' 0
                  some (.jnum (-(n : Int)), r)
                else none
            | [] => none
          else if isDigitChar c then
            let (n, r) := parseDigitsAux (c :: cs') 0
            some (.jnum (n : Int), r)
          else none

/-- Parse the comma-separated elements of a nonempty JSON array, up to and
including the closing bracket. -/
def parseArrElems : Nat → List Char → Option (List JVal × List Char)
  | 0, _ => none
  | fuel + 1, cs =>
      match parseVal fuel cs with
      | none => none
      | some (v, r) =>
          match skipWs r with
          | ',' :: r2 =>
              match parseArrElems fuel r2 with
              | some (vs, r3) => some (v :: vs, r3)
              | none => none
          | ']' :: r2 => some ([v], r2)
          | _ => none

/-- Parse the comma-separated members of a nonempty JSON object, up to and
including the closing brace. -/
def parseObjMembers : Nat → List Char → Option (List (String × JVal) × List Char)
  | 0, _ => none
  | fuel + 1, cs =>
      match skipWs cs with
      | '"' :: cs' =>
          match parseStrAux cs' with
          | none => none
          | some (k, r) =>
              match skipWs r with
              | ':' :: r2 =>
                  match parseVal fuel r2 with
                  | none => none
                  | some (v, r3) =>
                      match skipWs r3 with
                      | ',' :: r4 =>
                          match parseObjMembers fuel r4 with
                          | some (ms, r5) => some ((String.mk k, v) :: ms, r5)
                          | none => none
                      | '\x7d' :: r4 => some ([(String.mk k, v)], r4)
                      | _ => none
              | _ => none
      | _ => none

end

/-- Embedding of `json.loads` on a string: parse one JSON value and
require only whitespace after it; any failure stands for
`json.JSONDecodeError`. -/
def loads (s : String) : Except PyExc JVal :=
  match parseVal (2 * s.length + 4) s.toList with
  | some (j, rest) => if (skipWs rest).isEmpty then .ok j else .error .jsonDecodeError
  | none => .error .jsonDecodeError

/-- Filesystem model: association list of paths to byte contents, newest
binding first (so writing shadows, i.e. overwrites, earlier content). -/
abbrev FS := List (String × List Nat)

/-- Write a file, overwriting whatever the path held before. -/
def fsWrite (fs : FS) (p : String) (b : List Nat) : FS := (p, b) :: fs

/-- Content a path holds in the filesystem model. -/
def fsRead : FS → String → Option (List Nat)
  | [], _ => none
  | (q, b) :: rest, p => if q = p then some b else fsRead rest p

/-- Observable outcome of the scripted conversation (the body of `main`'s
`try` block after the handshake): the requests sent to the child in order,
the stderr log lines of the conversation, the final filesystem, and the
exception that left the `try` block, if any (it is caught by `main`'s
top-level `except Exception`). -/
structure ConvOut where
  sent : List JVal
  logs : List String
  fs : FS
  err : Option PyExc
deriving Repr

/-- Python `str()` of a device id as interpolated into the
`Found device:` log line; exact for strings, which is the only case the
conversation logs can reach with a well-formed device list. -/
def pyStr : JVal → String
  | .jstr s => s
  | j => dumps j

/-- Embedding of the screenshot-saving block (src/interact_mcp.py lines
115-119): `open("screenshot.png", "wb")` truncates the file first, then
`base64.b64decode(image_data)` is evaluated — so a decode failure (or a
non-string `data`, on which `b64decode` raises `TypeError`) still leaves
an empty file behind before the exception propagates. -/
def captureWrite (sent : List JVal) (logs : List String) (fs : FS) (dataV : JVal) : ConvOut :=
  match dataV with
  | .jstr s =>
      match b64decode s with
      | some bs =>
          ⟨sent, logs ++ ["Screenshot saved to screenshot.png"],
            fsWrite fs "screenshot.png" bs, none⟩
      | none => ⟨sent, logs, fsWrite fs "screenshot.png" [], some .binasciiError⟩
  | _ => ⟨sent, logs, fsWrite fs "screenshot.png" [], some .typeError⟩

/-- Embedding of the capture step (src/interact_mcp.py lines 111-119):
read the screenshot response; on `'result' in resp and 'content' in
resp['result']` extract `resp['result']['content'][0]['data']` and save
it; when the guard is false the block is skipped silently. -/
def captureStage (r3 : ReadResult) (sent : List JVal) (logs : List String) (fs : FS) : ConvOut :=
  match read_message r3 with
  | .error e => ⟨sent, logs, fs, some e⟩
  | .ok none => ⟨sent, logs, fs, some .typeError⟩
  | .ok (some j) =>
      match pyContainsV "result" j with
      | .error e => ⟨sent, logs, fs, some e⟩
      | .ok false => ⟨sent, logs, fs, none⟩
      | .ok true =>
          match pySubscriptStr j "result" with
          | .error e => ⟨sent, logs, fs, some e⟩
          | .ok rv =>
              match pyContainsV "content" rv with
              | .error e => ⟨sent, logs, fs, some e⟩
              | .ok false => ⟨sent, logs, fs, none⟩
              | .ok true =>
                  match pySubscriptStr rv "content" with
                  | .error e => ⟨sent, logs, fs, some e⟩
                  | .ok cv =>
                      match pySubscriptNat cv 0 with
                      | .error e => ⟨sent, logs, fs, some e⟩
                      | .ok e0 =>
                          match pySubscriptStr e0 "data" with
                          | .error e => ⟨sent, logs, fs, some e⟩
                          | .ok dataV => captureWrite sent logs fs dataV

/-- Embedding of the device-selection branch (src/interact_mcp.py lines
98-121): `if devices_data['devices']:` selects
`devices_data['devices'][0]['id']` and runs the capture step, else logs
`No devices found.` and falls off the `try` block without error. -/
def selectDevice (r3 : ReadResult) (sent : List JVal) (logs : List String) (fs : FS)
    (devs : JVal) : ConvOut :=
  if pyTruthy devs then
    match pySubscriptNat devs 0 with
    | .error e => ⟨sent, logs, fs, some e⟩
    | .ok d0 =>
        match pySubscriptStr d0 "id" with
        | .error e => ⟨sent, logs, fs, some e⟩
        | .ok did =>
            captureStage r3 (sent ++ [screenshot_request did])
              (logs ++ ["Found device: " ++ pyStr did]) fs
  else ⟨sent, logs ++ ["No devices found."], fs, none⟩

/-- Embedding of the device-listing step (src/interact_mcp.py lines
91-121): read the response; on `'result' in resp and 'content' in
resp['result']` take `resp['result']['content'][0]['text']`, parse it
with `json.loads`, subscript `['devices']` and select a device; when the
guard is false the whole block is skipped silently and the run ends
without error. -/
def listStage (r2 r3 : ReadResult) (sent : List JVal) (fs : FS) : ConvOut :=
  match read_message r2 with
  | .error e => ⟨sent, [], fs, some e⟩
  | .ok none => ⟨sent, [], fs, some .typeError⟩
  | .ok (some j) =>
      match pyContainsV "result" j with
      | .error e => ⟨sent, [], fs, some e⟩
      | .ok false => ⟨sent, [], fs, none⟩
      | .ok true =>
          match pySubscriptStr j "result" with
          | .error e => ⟨sent, [], fs, some e⟩
          | .ok rv =>
              match pyContainsV "content" rv with
              | .error e => ⟨sent, [], fs, some e⟩
              | .ok false => ⟨sent, [], fs, none⟩
              | .ok true =>
                  match pySubscriptStr rv "content" with
                  | .error e => ⟨sent, [], fs, some e⟩
                  | .ok cv =>
                      match pySubscriptNat cv 0 with
                      | .error e => ⟨sent, [], fs, some e⟩
                      | .ok e0 =>
                          match pySubscriptStr e0 "text" with
                          | .error e => ⟨sent, [], fs, some e⟩
                          | .ok textV =>
                              match textV with
                              | .jstr ts =>
                                  match loads ts with
                                  | .error e => ⟨sent, [], fs, some e⟩
                                  | .ok dd =>
                                      match pySubscriptStr dd "devices" with
                                      | .error e => ⟨sent, [], fs, some e⟩
                                      | .ok devs => selectDevice r3 sent [] fs devs
                              | _ => ⟨sent, [], fs, some .typeError⟩

/-- Embedding of the scripted conversation, the body of `main`'s `try`
block after the handshake (src/interact_mcp.py lines 68-121), as a
function of the read outcomes the child offers to the three
`read_message` calls and of the initial filesystem.  `send_message` calls
are recorded in order in `sent`; the exception leaving the block, if any,
is recorded in `err` (it is what `main`'s `except Exception` catches). -/
def mainConversation (r1 r2 r3 : ReadResult) (fs0 : FS) : ConvOut :=
  match read_message r1 with
  | .error e => ⟨[init_request], [], fs0, some e⟩
  | .ok initResp =>
      match pyContains "error" initResp with
      | .error e => ⟨[init_request], [], fs0, some e⟩
      | .ok true => ⟨[init_request], [], fs0, some (.runtimeError "Server initialization failed")⟩
      | .ok false => listStage r2 r3 [init_request, list_devices_request] fs0

/-- Behavior of the child process when the `finally` block runs:
it has already exited; or it is running and exits within the 5-second
grace period after `terminate()`; or it ignores the termination request
for longer than the grace period. -/
inductive ChildShutdownBehavior where
  | alreadyExited
  | exitsWithinGrace
  | ignoresTerminate
deriving DecidableEq, Repr

/-- Observable outcome of the `finally` block: whether `terminate()` was
called, whether `stderr_thread.join(timeout=2)` was reached, the log
lines printed, and the exception propagating out of the block, if any. -/
structure ShutdownOutcome where
  termRequested : Bool
  joined : Bool
  logs : List String
  err : Option PyExc
deriving DecidableEq, Repr

/-- Embedding of the `finally` block (src/interact_mcp.py lines 126-132):
when `poll()` reports the child still running, call `terminate()` and
`wait(timeout=5)`.  There is no `kill()` fallback: if the child is still
alive when the grace period elapses, `wait` raises
`subprocess.TimeoutExpired`, which propagates out of `main` (the
`finally` block has no handler), skipping the `stderr_thread.join`. -/
def mainShutdown : ChildShutdownBehavior → ShutdownOutcome
  | .alreadyExited => ⟨false, true, [], none⟩
  | .exitsWithinGrace => ⟨true, true, ["Terminating server process."], none⟩
  | .ignoresTerminate => ⟨true, false, ["Terminating server process."], some .timeoutExpired⟩

/-- Behavior of the child over a whole run: what its stdout offers to
each read, how it reacts to shutdown, plus the initial filesystem. -/
structure World where
  out : ChildOutput
  shut : ChildShutdownBehavior
  fs0 : FS

/-- Approximate `str(e)` text of each modelled exception (only the
`TimeoutError` text is script-chosen; the others are CPython's). -/
def excMsg : PyExc → String
  | .timeoutError => "Timed out waiting for a response from the server."
  | .jsonDecodeError => "Expecting value"
  | .typeError => "argument of type \x27NoneType\x27 is not iterable"
  | .keyError k => "\x27" ++ k ++ "\x27"
  | .indexError => "list index out of range"
  | .attributeError => "\x27list\x27 object has no attribute \x27get\x27"
  | .runtimeError m => m
  | .binasciiError => "Invalid base64-encoded string"
  | .timeoutExpired => "Command timed out after 5 seconds"

/-- Log line of `main`'s top-level handler `except Exception as e`. -/
def excLogLine (e : PyExc) : String := "An error occurred: " ++ excMsg e

/-- Observable outcome of one whole `main()` invocation. -/
structure RunOutcome where
  sent : List JVal
  logs : List String
  fs : FS
  caught : Option PyExc
  shutdown : ShutdownOutcome
  exitCode : Nat
deriving Repr

/-- Assemble the outcome of a run: the `finally` block always executes;
the process exit code is 0 unless an exception escapes `main` — the only
exception that can (every conversation failure being caught by the
top-level handler) is one raised inside the `finally` block itself. -/
def finishRun (sent : List JVal) (logs : List String) (fs : FS) (caught : Option PyExc)
    (sb : ChildShutdownBehavior) : RunOutcome :=
  ⟨sent, logs ++ (mainShutdown sb).logs, fs, caught, mainShutdown sb,
    if (mainShutdown sb).err = none then 0 else 1⟩

/-- Conversation run from read index `i` on the child's stdout (the index
the handshake loop left off at): the three conversation reads are the
next three offers of the stream. -/
def runConv (w : World) (i : Nat) : ConvOut :=
  mainConversation (readAt w.out i) (readAt w.out (i + 1)) (readAt w.out (i + 2)) w.fs0

/-- Log lines of the conversation plus, when an exception left the `try`
block, the line printed by the top-level `except Exception` handler. -/
def convLogs (c : ConvOut) : List String :=
  c.logs ++ (match c.err with | some e => [excLogLine e] | none => [])

/-- Embedding of one whole `main()` invocation (src/interact_mcp.py lines
38-132) on a child behavior, with fuel bounding the handshake loop:
`none` means the handshake loop is still spinning after `fuel`
iterations.  An exception escaping the handshake loop, like one escaping
the conversation, is caught by the top-level handler, logged, and
followed by the `finally` shutdown. -/
def runMain (w : World) (fuel : Nat) : Option RunOutcome :=
  match handshakeAux w.out fuel 0 [] with
  | .outOfFuel => none
  | .raised e hsLogs =>
      some (finishRun [] (hsLogs ++ [excLogLine e]) w.fs0 (some e) w.shut)
  | .done i hsLogs =>
      some (finishRun (runConv w i).sent (hsLogs ++ convLogs (runConv w i))
        (runConv w i).fs (runConv w i).err w.shut)

/-- Successful initialize response fixture (no `error` key). -/
def init_ok_response : JVal :=
  .jobj [("jsonrpc", .jstr "2.0"),
         ("result", .jobj [("capabilities", .jobj [])]),
         ("id", .jnum 0)]

/-- Initialize response fixture carrying an `error` key. -/
def init_error_response : JVal :=
  .jobj [("jsonrpc", .jstr "2.0"),
         ("error", .jobj [("code", .jnum (-32600)), ("message", .jstr "bad request")]),
         ("id", .jnum 0)]

/-- Device-list text from the specification's example:
two devices, `dev-1` then `dev-2`. -/
def spec_devices_text : String :=
  "\x7b\"devices\": [\x7b\"id\": \"dev-1\"\x7d, \x7b\"id\": \"dev-2\"\x7d]\x7d"

/-- Device-list text with an empty device list. -/
def empty_devices_text : String := "\x7b\"devices\": []\x7d"

/-- Well-formed device-list response whose content text entry is the
given string. -/
def list_response_of (ts : String) : JVal :=
  .jobj [("jsonrpc", .jstr "2.0"),
         ("result", .jobj [("content", .jarr [.jobj [("type", .jstr "text"), ("text", .jstr ts)]])]),
         ("id", .jnum 1)]

/-- Malformed device-list response: a `result` with an empty `content`
list, so `['content'][0]` raises `IndexError`. -/
def empty_content_response : JVal :=
  .jobj [("jsonrpc", .jstr "2.0"),
         ("result", .jobj [("content", .jarr [])]),
         ("id", .jnum 1)]

/-- Well-formed capture response whose first content entry carries the
given inline base64 data. -/
def screenshot_response_of (dataStr : String) : JVal :=
  .jobj [("jsonrpc", .jstr "2.0"),
         ("result", .jobj [("content", .jarr [.jobj [("type", .jstr "image"), ("data", .jstr dataStr)]])]),
         ("id", .jnum 2)]

/-- Child that closes its stdout immediately without ever emitting
`server_info`: every read sees end-of-stream. -/
def closing_child : ChildOutput := ⟨[], true⟩

/-- World whose child stays silent with an open stream (every read times
out, so the conversation fails at the initialize read) and terminates
promptly at shutdown. -/
def failing_world : World := ⟨⟨[], false⟩, .exitsWithinGrace, []⟩

/-! Helper lemmas shared by the claim theorems. -/

theorem readsFrom_defaultPast : ∀ (l : List ReadResult) (d : ReadResult) (i : Nat),
    l.length ≤ i → readsFrom l d i = d
  | [], _, _, _ => rfl
  | _ :: _, _, 0, h => absurd h (by simp)
  | _ :: rs, d, i + 1, h => readsFrom_defaultPast rs d i (by simpa using h)

theorem readsFrom_memOf : ∀ (l : List ReadResult) (d : ReadResult) (i : Nat),
    i < l.length → readsFrom l d i ∈ l
  | r :: _, _, 0, _ => List.mem_cons_self r _
  | _ :: rs, d, i + 1, h => List.mem_cons_of_mem _ (readsFrom_memOf rs d i (by simpa using h))

theorem handshakeStep_ok_of_benign (r : ReadResult) (h : hsBenign r = true) :
    ∃ d l, handshakeStep r = .ok (d, l) := by
  cases r with
  | timeout => exact ⟨_, _, rfl⟩
  | eof => exact ⟨_, _, rfl⟩
  | badLine => simp [hsBenign] at h
  | msg j =>
      cases j with
      | jobj kvs =>
          by_cases ht : pyTruthy (JVal.jobj kvs)
          · refine ⟨(handshakeObjStep kvs).1, (handshakeObjStep kvs).2, ?_⟩
            simp [handshakeStep, ht]
          · simp [handshakeStep, ht]
      | jnull => exact ⟨_, _, rfl⟩
      | jbool b =>
          simp [hsBenign, pyTruthy] at h
          simp [handshakeStep, pyTruthy, h]
      | jnum n =>
          simp [hsBenign, pyTruthy] at h
          simp [handshakeStep, pyTruthy, h]
      | jstr s =>
          simp [hsBenign, pyTruthy] at h
          simp [handshakeStep, pyTruthy, h]
      | jarr xs =>
          simp [hsBenign, pyTruthy] at h
          simp [handshakeStep, pyTruthy, h]

theorem handshakeAux_closing : ∀ (fuel i : Nat) (acc : List String),
    handshakeAux closing_child fuel i acc = .outOfFuel
  | 0, _, _ => rfl
  | fuel + 1, i, acc => handshakeAux_closing fuel (i + 1) (acc ++ [waitingLog])

theorem handshakeAux_completes_open : ∀ (fuel : Nat) (i : Nat) (acc : List String)
    (co : ChildOutput), co.closed = false → (∀ r ∈ co.events, hsBenign r = true) →
    co.events.length - i < fuel →
    ∃ jn logs, handshakeAux co fuel i acc = .done jn logs
  | 0, i, _, co, _, _, hf => absurd hf (by omega)
  | fuel + 1, i, acc, co, hopen, hben, hf => by
      by_cases hi : co.events.length ≤ i
      · have hr : readAt co i = .timeout := by
          unfold readAt
          rw [readsFrom_defaultPast _ _ i hi, hopen]
          simp
        refine ⟨i + 1, acc ++ [noMessageLog], ?_⟩
        rw [handshakeAux, hr]
        rfl
      · push_neg at hi
        have hmem : readAt co i ∈ co.events := readsFrom_memOf _ _ i hi
        obtain ⟨d, l, hstep⟩ := handshakeStep_ok_of_benign _ (hben _ hmem)
        rw [handshakeAux, hstep]
        cases d with
        | complete => exact ⟨i + 1, acc ++ [l], rfl⟩
        | repeatWait =>
            exact handshakeAux_completes_open fuel (i + 1) (acc ++ [l]) co hopen hben (by omega)

theorem captureWrite_sent (sent : List JVal) (logs : List String) (fs : FS) (dataV : JVal) :
    (captureWrite sent logs fs dataV).sent = sent := by
  unfold captureWrite
  cases dataV with
  | jstr s => cases hb : b64decode s <;> simp [hb]
  | jnull => rfl
  | jbool b => rfl
  | jnum n => rfl
  | jarr xs => rfl
  | jobj kvs => rfl

theorem captureStage_sent (r3 : ReadResult) (sent : List JVal) (logs : List String) (fs : FS) :
    (captureStage r3 sent logs fs).sent = sent := by
  unfold captureStage
  repeat' split
  all_goals first | rfl | apply captureWrite_sent

/-! Claim C1.  The specification claims `Send` writes the JSON
serialization followed by exactly one newline and flushes.  The script
flushes, but the Python literal `'\x5c\x5cn'` it appends denotes a
backslash followed by the letter n, not a newline. -/

/-- C1 (code bug): for the initialize request (as for every message), the
bytes `send_message` writes are the JSON serialization followed by the
two characters backslash and `n` — not by a newline — and the stream is
flushed immediately after the write. -/
theorem send_message_no_newline :
    (send_message init_request).flushed = true ∧
    (send_message init_request).bytes = dumps init_request ++ "\\n" ∧
    (send_message init_request).bytes ≠ dumps init_request ++ "\n" := by
  refine ⟨rfl, rfl, ?_⟩
  decide

/-! Claim C2.  The `finally` block calls `terminate()` and
`wait(timeout=5)`, but there is no `kill()` fallback: a child that
ignores termination makes `wait` raise `subprocess.TimeoutExpired`, which
propagates, so Shutdown does not unblock without error. -/

/-- C2 (counterexample): when the child ignores the termination request
for longer than the grace period, the shutdown block propagates
`TimeoutExpired` and never reaches the `stderr_thread.join`, refuting the
claimed forced-exit fallback. -/
theorem shutdown_no_forced_exit :
    (mainShutdown .ignoresTerminate).err = some .timeoutExpired ∧
    (mainShutdown .ignoresTerminate).joined = false :=
  ⟨rfl, rfl⟩

/-- C2 (amended): if the child is still running it is asked to terminate
and waited on for the grace period, and when the child has already exited
or exits within that period, shutdown completes without error and joins
the diagnostics thread; but when the child ignores the termination
request for longer than the grace period, `wait` raises `TimeoutExpired`,
which propagates (there is no forced-exit fallback) and the thread join
is skipped. -/
theorem shutdown_grace_behavior (b : ChildShutdownBehavior) :
    (b ≠ .alreadyExited → (mainShutdown b).termRequested = true) ∧
    (b ≠ .ignoresTerminate → (mainShutdown b).err = none ∧ (mainShutdown b).joined = true) ∧
    (b = .ignoresTerminate →
      (mainShutdown b).err = some .timeoutExpired ∧ (mainShutdown b).joined = false) := by
  cases b <;> simp [mainShutdown]

/-- C2 (witness): a child that exits within the grace period is asked to
terminate, and shutdown completes without error. -/
theorem shutdown_grace_behavior_witness :
    (mainShutdown .exitsWithinGrace).termRequested = true ∧
    (mainShutdown .exitsWithinGrace).err = none :=
  ⟨(shutdown_grace_behavior .exitsWithinGrace).1 (by decide),
   ((shutdown_grace_behavior .exitsWithinGrace).2.1 (by decide)).1⟩

/-! Claim C3.  Failures are indeed caught at the top level, logged and
followed by shutdown, but `main()` swallows the exception and returns
normally, so the process exit code is 0 even when the run failed. -/

/-- C3 (counterexample): a run whose conversation fails — the silent child
times out the initialize read and the failure is caught by the top-level
handler — still exits with code 0, refuting that the exit code is nonzero
exactly when the run failed. -/
theorem exit_code_zero_on_failed_run :
    (runMain failing_world 1).map (fun o => (o.caught, o.exitCode))
      = some (some .timeoutError, 0) := rfl

/-- C3 (amended): every failure during the scripted conversation is caught
at the top level, logged by the `An error occurred` handler, and followed
unconditionally by Shutdown; but the process exit code does not reflect
conversation success — it is 0 whether or not the conversation failed,
and is nonzero exactly when the shutdown block itself raises (the child
ignoring termination beyond the grace period). -/
theorem failures_caught_logged_shut (w : World) (fuel : Nat) (o : RunOutcome)
    (h : runMain w fuel = some o) :
    o.shutdown = mainShutdown w.shut ∧
    (∀ e, o.caught = some e → excLogLine e ∈ o.logs) ∧
    (o.exitCode = 0 ↔ (mainShutdown w.shut).err = none) := by
  unfold runMain at h
  cases hh : handshakeAux w.out fuel 0 [] with
  | outOfFuel => rw [hh] at h; cases h
  | raised e hsLogs =>
      rw [hh] at h
      injection h with h
      subst h
      refine ⟨rfl, ?_, ?_⟩
      · intro e2 he2
        simp [finishRun] at he2
        subst he2
        simp [finishRun, List.mem_append]
      · by_cases hso : (mainShutdown w.shut).err = none <;> simp [finishRun, hso]
  | done i hsLogs =>
      rw [hh] at h
      injection h with h
      subst h
      refine ⟨rfl, ?_, ?_⟩
      · intro e2 he2
        simp [finishRun] at he2
        simp [finishRun, convLogs, he2, List.mem_append]
      · by_cases hso : (mainShutdown w.shut).err = none <;> simp [finishRun, hso]

/-- C3 (witness): the silent-child run yields an outcome whose exit code
is 0, equivalently whose shutdown raised nothing. -/
theorem failures_caught_logged_shut_witness :
    ∃ o, runMain failing_world 1 = some o ∧
      (o.exitCode = 0 ↔ (mainShutdown failing_world.shut).err = none) :=
  ⟨_, rfl, (failures_caught_logged_shut failing_world 1 _ rfl).2.2⟩

/-! Claim C4.  The timeout fallback does terminate the handshake for a
silent-but-open stream, but a child that CLOSES its stdout without
emitting `server_info` makes the loop spin forever: `select` reports the
closed pipe readable immediately, `readline` returns the empty string,
`read_message` returns the `None` sentinel, and the loop logs and
repeats. -/

/-- C4 (counterexample): a child that closes its output stream without
ever emitting `server_info` makes the handshake loop spin forever; it
never completes, for any amount of fuel. -/
theorem handshake_spins_forever_on_close : ¬ hsCompletes closing_child := by
  rintro ⟨fuel, i, logs, h⟩
  rw [handshakeAux_closing fuel 0 []] at h
  cases h

/-- C4 (amended): for every child behavior in which the output stream is
never closed (after its finite events, reads time out) and every event is
benign for the loop (a message that is a JSON object or a falsy value, a
timeout, or a transient end-of-stream read), the handshake loop
terminates and the harness proceeds to initialization.  A child that
closes its stream without emitting `server_info` instead loops forever,
and a truthy non-object message or invalid JSON line exits the loop by an
uncaught exception rather than proceeding. -/
theorem handshake_completes_on_open_stream (co : ChildOutput)
    (hopen : co.closed = false) (hben : ∀ r ∈ co.events, hsBenign r = true) :
    hsCompletes co := by
  obtain ⟨jn, logs, h⟩ :=
    handshakeAux_completes_open (co.events.length + 1) 0 [] co hopen hben (by omega)
  exact ⟨_, jn, logs, h⟩

/-- C4 (witness): a child that sends one non-`server_info` message and
then stays silent lets the handshake complete. -/
theorem handshake_completes_on_open_stream_witness :
    hsCompletes ⟨[.msg (.jobj [("method", .jstr "status")])], false⟩ :=
  handshake_completes_on_open_stream _ rfl (by decide)

/-! Claim C5.  The guard `if 'result' in resp and 'content' in
resp['result']` makes a response without those keys skip the block — but
silently, with no log — while shapes malformed past the guard (empty
content, missing text, invalid JSON, missing devices) raise exceptions
that abort the conversation instead of degrading. -/

/-- C5 (counterexample): a device-list response whose `result.content` is
an empty list makes the harness raise `IndexError` — aborting the
conversation to the top-level handler — without logging any data-shape
problem, refuting both the claimed logging and the claimed graceful
degradation for malformed fields. -/
theorem empty_content_raises_index_error :
    (mainConversation (.msg init_ok_response) (.msg empty_content_response) .timeout []).err
      = some .indexError ∧
    (mainConversation (.msg init_ok_response) (.msg empty_content_response) .timeout []).logs
      = [] :=
  ⟨rfl, rfl⟩

/-- C5 (amended): only a device-list response lacking the `result` key
(and likewise one lacking `content` under it) degrades gracefully — and
silently, with no log of the problem: the block is skipped, no capture
request is sent and the run ends without error.  A shape malformed past
that guard (here: an empty `content` list) instead raises an exception
that aborts the conversation and is handled only by the top-level
catch. -/
theorem data_shape_degradation (kvs : List (String × JVal)) (r3 : ReadResult) (fs : FS)
    (hnores : lookupKV kvs "result" = none) :
    mainConversation (.msg init_ok_response) (.msg (.jobj kvs)) r3 fs
      = ⟨[init_request, list_devices_request], [], fs, none⟩ ∧
    (mainConversation (.msg init_ok_response) (.msg empty_content_response) r3 fs).err
      = some .indexError := by
  constructor
  · show listStage (.msg (.jobj kvs)) r3 [init_request, list_devices_request] fs = _
    unfold listStage
    simp [read_message, pyContainsV, hnores]
  · rfl

/-- C5 (witness): a device-list response with no `result` key is skipped
silently — both requests but no capture request were sent, nothing was
logged, and the run ends without error. -/
theorem data_shape_degradation_witness :
    mainConversation (.msg init_ok_response) (.msg (.jobj [("id", .jnum 1)])) .timeout []
      = ⟨[init_request, list_devices_request], [], [], none⟩ :=
  (data_shape_degradation [("id", .jnum 1)] .timeout [] rfl).1

/-! Claim C6.  The handshake decision matches the claim for objects,
falsy values and timeouts, but a truthy non-dict message (a JSON array,
string or number) raises `AttributeError` on `.get` instead of being
logged and repeated. -/

/-- C6 (counterexample): a received message that is a truthy non-dict —
here the JSON array `[1]` — is neither treated as completion nor logged
and repeated: `initial_message.get("method")` raises `AttributeError`,
which the loop's `except TimeoutError` does not catch. -/
theorem handshake_truthy_nondict_raises :
    handshakeStep (.msg (.jarr [.jnum 1])) = .error .attributeError := rfl

/-- C6 (amended): during the handshake, a received JSON-object message
whose method equals `server_info` completes the handshake immediately; a
receive timeout also completes it; any other received JSON object, any
falsy message, and the end-of-stream sentinel are logged and the wait
repeats; but a truthy non-object message raises `AttributeError` out of
the loop instead of being logged and repeated. -/
theorem handshake_step_cases (kvs : List (String × JVal)) (j : JVal) :
    handshakeStep .timeout = .ok (.complete, noMessageLog) ∧
    handshakeStep .eof = .ok (.repeatWait, waitingLog) ∧
    (lookupKV kvs "method" = some (.jstr "server_info") →
      handshakeStep (.msg (.jobj kvs)) = .ok (.complete, serverInfoLog)) ∧
    (lookupKV kvs "method" ≠ some (.jstr "server_info") →
      handshakeStep (.msg (.jobj kvs)) = .ok (.repeatWait, waitingLog)) ∧
    (pyTruthy j = false → handshakeStep (.msg j) = .ok (.repeatWait, waitingLog)) ∧
    (pyTruthy j = true → (∀ kvs2, j ≠ .jobj kvs2) →
      handshakeStep (.msg j) = .error .attributeError) := by
  refine ⟨rfl, rfl, ?_, ?_, ?_, ?_⟩
  · intro hm
    cases kvs with
    | nil => simp [lookupKV] at hm
    | cons p rest => simp [handshakeStep, pyTruthy, handshakeObjStep, hm]
  · intro hm
    cases hkv : lookupKV kvs "method" with
    | none =>
        cases kvs with
        | nil => rfl
        | cons p rest => simp [handshakeStep, pyTruthy, handshakeObjStep, hkv]
    | some v =>
        cases kvs with
        | nil => simp [lookupKV] at hkv
        | cons p rest =>
            cases v with
            | jstr m =>
                rcases eq_or_ne m "server_info" with hm2 | hm2
                · exact absurd (hm2 ▸ hkv) hm
                · simp [handshakeStep, pyTruthy, handshakeObjStep, hkv, hm2]
            | jnull => simp [handshakeStep, pyTruthy, handshakeObjStep, hkv]
            | jbool b => simp [handshakeStep, pyTruthy, handshakeObjStep, hkv]
            | jnum n => simp [handshakeStep, pyTruthy, handshakeObjStep, hkv]
            | jarr xs => simp [handshakeStep, pyTruthy, handshakeObjStep, hkv]
            | jobj kvs2 => simp [handshakeStep, pyTruthy, handshakeObjStep, hkv]
  · intro ht
    simp [handshakeStep, ht]
  · intro ht hnd
    cases j with
    | jobj kvs2 => exact absurd rfl (hnd kvs2)
    | jnull => simp [pyTruthy] at ht
    | jbool b => simp [handshakeStep, ht]
    | jnum n => simp [handshakeStep, ht]
    | jstr s => simp [handshakeStep, ht]
    | jarr xs => simp [handshakeStep, ht]

/-- C6 (witness): a `server_info` message completes the handshake and a
`status` message is logged and repeats the wait. -/
theorem handshake_step_cases_witness :
    handshakeStep (.msg (.jobj [("method", .jstr "server_info")])) = .ok (.complete, serverInfoLog) ∧
    handshakeStep (.msg (.jobj [("method", .jstr "status")])) = .ok (.repeatWait, waitingLog) :=
  ⟨(handshake_step_cases [("method", .jstr "server_info")] .jnull).2.2.1 rfl,
   (handshake_step_cases [("method", .jstr "status")] .jnull).2.2.2.1
     (by intro hc; simp [lookupKV] at hc)⟩

/-! Claim C7.  Line 79-80: `if 'error' in init_response: raise
RuntimeError(...)` runs before the device-listing request is built or
sent, and nothing retries initialization. -/

/-- C7 (confirmed): whenever the initialize response is an object carrying
an `error` key, the conversation aborts with `RuntimeError` having sent
only the initialize request — no device-listing request is ever sent and
initialization is not retried. -/
theorem init_error_aborts_run (kvs : List (String × JVal)) (v : JVal)
    (r2 r3 : ReadResult) (fs : FS) (herr : lookupKV kvs "error" = some v) :
    mainConversation (.msg (.jobj kvs)) r2 r3 fs
      = ⟨[init_request], [], fs, some (.runtimeError "Server initialization failed")⟩ := by
  unfold mainConversation
  simp [read_message, pyContains, pyContainsV, herr]

/-- C7 (witness): an initialize response carrying an `error` key aborts
the run with only the initialize request sent. -/
theorem init_error_aborts_run_witness :
    mainConversation (.msg init_error_response) .timeout .timeout []
      = ⟨[init_request], [], [], some (.runtimeError "Server initialization failed")⟩ :=
  init_error_aborts_run _ _ _ _ _ rfl

/-! Claim C8 and claim C9 reduction helpers: a well-shaped device-list
response drives `listStage` to `selectDevice`, and a well-shaped capture
response drives `captureStage` to the screenshot write. -/

theorem listStage_selects (kvs rkvs ekvs dkvs : List (String × JVal)) (es devs : List JVal)
    (ts : String) (r3 : ReadResult) (sent : List JVal) (fs : FS)
    (hres : lookupKV kvs "result" = some (.jobj rkvs))
    (hcon : lookupKV rkvs "content" = some (.jarr (JVal.jobj ekvs :: es)))
    (htext : lookupKV ekvs "text" = some (.jstr ts))
    (hload : loads ts = .ok (.jobj dkvs))
    (hdevs : lookupKV dkvs "devices" = some (.jarr devs)) :
    listStage (.msg (.jobj kvs)) r3 sent fs = selectDevice r3 sent [] fs (.jarr devs) := by
  unfold listStage
  simp [read_message, pyContainsV, pySubscriptStr, pySubscriptNat, hres, hcon, htext, hload, hdevs]

theorem captureStage_writes (skvs srkvs sekvs : List (String × JVal)) (ses : List JVal)
    (db : String) (bs : List Nat) (sent : List JVal) (logs : List String) (fs : FS)
    (hsres : lookupKV skvs "result" = some (.jobj srkvs))
    (hscon : lookupKV srkvs "content" = some (.jarr (JVal.jobj sekvs :: ses)))
    (hdata : lookupKV sekvs "data" = some (.jstr db))
    (hdec : b64decode db = some bs) :
    captureStage (.msg (.jobj skvs)) sent logs fs
      = ⟨sent, logs ++ ["Screenshot saved to screenshot.png"],
          fsWrite fs "screenshot.png" bs, none⟩ := by
  unfold captureStage
  simp [read_message, pyContainsV, pySubscriptStr, pySubscriptNat, hsres, hscon, hdata,
    captureWrite, hdec]

/-! Claim C8.  The script takes `devices_data['devices'][0]['id']`, sends
exactly one screenshot request naming it, and on an empty list logs
`No devices found.` and ends without error. -/

/-- C8 (confirmed): for every device-list response of the expected shape,
if the parsed device list is nonempty the harness sends exactly the three
requests initialize, list-devices and one capture request naming the
first device's id; if the device list is empty it logs `No devices
found.`, sends no capture request and ends the run without error. -/
theorem first_device_selected (kvs rkvs ekvs dkvs : List (String × JVal)) (es devs : List JVal)
    (ts : String) (r3 : ReadResult) (fs : FS)
    (hres : lookupKV kvs "result" = some (.jobj rkvs))
    (hcon : lookupKV rkvs "content" = some (.jarr (JVal.jobj ekvs :: es)))
    (htext : lookupKV ekvs "text" = some (.jstr ts))
    (hload : loads ts = .ok (.jobj dkvs))
    (hdevs : lookupKV dkvs "devices" = some (.jarr devs)) :
    (∀ d0kvs ds did, devs = JVal.jobj d0kvs :: ds → lookupKV d0kvs "id" = some did →
      (mainConversation (.msg init_ok_response) (.msg (.jobj kvs)) r3 fs).sent
        = [init_request, list_devices_request, screenshot_request did]) ∧
    (devs = [] →
      mainConversation (.msg init_ok_response) (.msg (.jobj kvs)) r3 fs
        = ⟨[init_request, list_devices_request], ["No devices found."], fs, none⟩) := by
  have hred : mainConversation (.msg init_ok_response) (.msg (.jobj kvs)) r3 fs
      = selectDevice r3 [init_request, list_devices_request] [] fs (.jarr devs) := by
    show listStage (.msg (.jobj kvs)) r3 [init_request, list_devices_request] fs = _
    exact listStage_selects kvs rkvs ekvs dkvs es devs ts r3 _ fs hres hcon htext hload hdevs
  constructor
  · intro d0kvs ds did hdevs0 hid
    subst hdevs0
    rw [hred]
    unfold selectDevice
    simp [pyTruthy, pySubscriptNat, pySubscriptStr, hid, captureStage_sent]
  · intro hdevs0
    subst hdevs0
    rw [hred]
    rfl

/-- C8 (witness): with the specification's example device list
`dev-1, dev-2`, the harness sends exactly one capture request naming
`dev-1`; with the empty device list it logs `No devices found.` and sends
no capture request. -/
theorem first_device_selected_witness :
    (mainConversation (.msg init_ok_response) (.msg (list_response_of spec_devices_text))
        .timeout []).sent
      = [init_request, list_devices_request, screenshot_request (.jstr "dev-1")] ∧
    mainConversation (.msg init_ok_response) (.msg (list_response_of empty_devices_text))
        .timeout []
      = ⟨[init_request, list_devices_request], ["No devices found."], [], none⟩ :=
  ⟨(first_device_selected
      [("jsonrpc", .jstr "2.0"),
       ("result", .jobj [("content",
          .jarr [.jobj [("type", .jstr "text"), ("text", .jstr spec_devices_text)]])]),
       ("id", .jnum 1)]
      [("content", .jarr [.jobj [("type", .jstr "text"), ("text", .jstr spec_devices_text)]])]
      [("type", .jstr "text"), ("text", .jstr spec_devices_text)]
      [("devices", .jarr [.jobj [("id", .jstr "dev-1")], .jobj [("id", .jstr "dev-2")]])]
      [] [.jobj [("id", .jstr "dev-1")], .jobj [("id", .jstr "dev-2")]]
      spec_devices_text .timeout []
      rfl rfl rfl rfl rfl).1
      [("id", .jstr "dev-1")] [.jobj [("id", .jstr "dev-2")]] (.jstr "dev-1") rfl rfl,
   (first_device_selected
      [("jsonrpc", .jstr "2.0"),
       ("result", .jobj [("content",
          .jarr [.jobj [("type", .jstr "text"), ("text", .jstr empty_devices_text)]])]),
       ("id", .jnum 1)]
      [("content", .jarr [.jobj [("type", .jstr "text"), ("text", .jstr empty_devices_text)]])]
      [("type", .jstr "text"), ("text", .jstr empty_devices_text)]
      [("devices", .jarr [])] [] []
      empty_devices_text .timeout []
      rfl rfl rfl rfl rfl).2 rfl⟩

/-! Claim C9 helpers: the base64 alphabet round-trips on sextets, and
decoding inverts encoding chunk by chunk. -/

theorem decChar_alphaChar : ∀ n, n < 64 → decChar (alphaChar n) = some n := by decide

theorem alphaChar_ne_pad : ∀ n, n < 64 → alphaChar n ≠ '=' := by decide

theorem b64decodeAux_encodeAux : ∀ bs : List Nat, (∀ b ∈ bs, b < 256) →
    b64decodeAux (b64encodeAux bs) = some bs
  | [], _ => rfl
  | [a], h => by
      have ha : a < 256 := h a (by simp)
      have h1 : a / 4 < 64 := by omega
      have h2 : a % 4 * 16 < 64 := by omega
      show b64decodeAux [alphaChar (a / 4), alphaChar (a % 4 * 16), '=', '='] = some [a]
      rw [b64decodeAux, if_pos ⟨rfl, rfl⟩, decChar_alphaChar _ h1, decChar_alphaChar _ h2]
      simp
      all_goals omega
  | [a, b], h => by
      have ha : a < 256 := h a (by simp)
      have hb : b < 256 := h b (by simp)
      have h1 : a / 4 < 64 := by omega
      have h2 : a % 4 * 16 + b / 16 < 64 := by omega
      have h3 : b % 16 * 4 < 64 := by omega
      show b64decodeAux [alphaChar (a / 4), alphaChar (a % 4 * 16 + b / 16),
          alphaChar (b % 16 * 4), '='] = some [a, b]
      have hy : alphaChar (b % 16 * 4) ≠ '=' := alphaChar_ne_pad _ h3
      rw [b64decodeAux, if_pos ⟨rfl, rfl⟩, decChar_alphaChar _ h1, decChar_alphaChar _ h2]
      simp [hy, decChar_alphaChar _ h3]
      all_goals omega
  | a :: b :: c :: rest, h => by
      have ha : a < 256 := h a (by simp)
      have hb : b < 256 := h b (by simp)
      have hc : c < 256 := h c (by simp)
      have ih := b64decodeAux_encodeAux rest (fun x hx => h x (by simp [hx]))
      have h1 : a / 4 < 64 := by omega
      have h2 : a % 4 * 16 + b / 16 < 64 := by omega
      have h3 : b % 16 * 4 + c / 64 < 64 := by omega
      have h4 : c % 64 < 64 := by omega
      have hz : ¬(alphaChar (c % 64) = '=' ∧ b64encodeAux rest = []) :=
        fun hcontra => alphaChar_ne_pad _ h4 hcontra.1
      show b64decodeAux (alphaChar (a / 4) :: alphaChar (a % 4 * 16 + b / 16) ::
          alphaChar (b % 16 * 4 + c / 64) :: alphaChar (c % 64) :: b64encodeAux rest)
        = some (a :: b :: c :: rest)
      rw [b64decodeAux, if_neg hz, decChar_alphaChar _ h1, decChar_alphaChar _ h2,
        decChar_alphaChar _ h3, decChar_alphaChar _ h4, ih]
      simp
      all_goals omega

/-! Claim C9.  For a capture response carrying inline base64 data, the
script writes `base64.b64decode(image_data)` to `screenshot.png` opened
in `wb` mode (truncating whatever was there), and base64 decoding inverts
encoding on every byte sequence. -/

/-- C9 (confirmed): for every capture response whose first content entry
carries inline base64 data that decodes to `bs`, the run ends with the
fixed output path holding exactly `bs`, whatever the file held before;
and base64 decoding round-trips: `decode (encode bytes) = bytes` for
every byte sequence. -/
theorem capture_writes_decoded_bytes
    (kvs rkvs ekvs dkvs d0kvs skvs srkvs sekvs : List (String × JVal))
    (es ds ses : List JVal) (ts db : String) (did : JVal) (bs : List Nat) (fs : FS)
    (hres : lookupKV kvs "result" = some (.jobj rkvs))
    (hcon : lookupKV rkvs "content" = some (.jarr (JVal.jobj ekvs :: es)))
    (htext : lookupKV ekvs "text" = some (.jstr ts))
    (hload : loads ts = .ok (.jobj dkvs))
    (hdevs : lookupKV dkvs "devices" = some (.jarr (JVal.jobj d0kvs :: ds)))
    (hid : lookupKV d0kvs "id" = some did)
    (hsres : lookupKV skvs "result" = some (.jobj srkvs))
    (hscon : lookupKV srkvs "content" = some (.jarr (JVal.jobj sekvs :: ses)))
    (hdata : lookupKV sekvs "data" = some (.jstr db))
    (hdec : b64decode db = some bs) :
    fsRead (mainConversation (.msg init_ok_response) (.msg (.jobj kvs))
        (.msg (.jobj skvs)) fs).fs "screenshot.png" = some bs ∧
    (∀ bytes : List Nat, (∀ b ∈ bytes, b < 256) → b64decode (b64encode bytes) = some bytes) := by
  constructor
  · have hred : mainConversation (.msg init_ok_response) (.msg (.jobj kvs)) (.msg (.jobj skvs)) fs
        = selectDevice (.msg (.jobj skvs)) [init_request, list_devices_request] [] fs
            (.jarr (JVal.jobj d0kvs :: ds)) := by
      show listStage (.msg (.jobj kvs)) (.msg (.jobj skvs))
          [init_request, list_devices_request] fs = _
      exact listStage_selects kvs rkvs ekvs dkvs es _ ts _ _ fs hres hcon htext hload hdevs
    have hsel : selectDevice (.msg (.jobj skvs)) [init_request, list_devices_request] [] fs
        (.jarr (JVal.jobj d0kvs :: ds))
        = captureStage (.msg (.jobj skvs))
            [init_request, list_devices_request, screenshot_request did]
            ["Found device: " ++ pyStr did] fs := by
      unfold selectDevice
      simp [pyTruthy, pySubscriptNat, pySubscriptStr, hid]
    rw [hred, hsel, captureStage_writes skvs srkvs sekvs ses db bs _ _ fs hsres hscon hdata hdec]
    simp [fsRead, fsWrite]
  · intro bytes hbnd
    show b64decodeAux (b64encodeAux bytes) = some bytes
    exact b64decodeAux_encodeAux bytes hbnd

/-- C9 (witness): with the example device list and a capture response
carrying data `AQID`, the output file ends up holding exactly `[1, 2, 3]`
even though it held other bytes before; and `[0, 255, 10]` round-trips
through encode and decode. -/
theorem capture_writes_decoded_bytes_witness :
    fsRead (mainConversation (.msg init_ok_response)
        (.msg (list_response_of spec_devices_text))
        (.msg (screenshot_response_of "AQID"))
        [("screenshot.png", [9, 9])]).fs "screenshot.png" = some [1, 2, 3] ∧
    b64decode (b64encode [0, 255, 10]) = some [0, 255, 10] :=
  ⟨(capture_writes_decoded_bytes
      [("jsonrpc", .jstr "2.0"),
       ("result", .jobj [("content",
          .jarr [.jobj [("type", .jstr "text"), ("text", .jstr spec_devices_text)]])]),
       ("id", .jnum 1)]
      [("content", .jarr [.jobj [("type", .jstr "text"), ("text", .jstr spec_devices_text)]])]
      [("type", .jstr "text"), ("text", .jstr spec_devices_text)]
      [("devices", .jarr [.jobj [("id", .jstr "dev-1")], .jobj [("id", .jstr "dev-2")]])]
      [("id", .jstr "dev-1")]
      [("jsonrpc", .jstr "2.0"),
       ("result", .jobj [("content",
          .jarr [.jobj [("type", .jstr "image"), ("data", .jstr "AQID")]])]),
       ("id", .jnum 2)]
      [("content", .jarr [.jobj [("type", .jstr "image"), ("data", .jstr "AQID")]])]
      [("type", .jstr "image"), ("data", .jstr "AQID")]
      [] [.jobj [("id", .jstr "dev-2")]] []
      spec_devices_text "AQID" (.jstr "dev-1") [1, 2, 3] [("screenshot.png", [9, 9])]
      rfl rfl rfl rfl rfl rfl rfl rfl rfl rfl).1,
   (capture_writes_decoded_bytes
      [("jsonrpc", .jstr "2.0"),
       ("result", .jobj [("content",
          .jarr [.jobj [("type", .jstr "text"), ("text", .jstr spec_devices_text)]])]),
       ("id", .jnum 1)]
      [("content", .jarr [.jobj [("type", .jstr "text"), ("text", .jstr spec_devices_text)]])]
      [("type", .jstr "text"), ("text", .jstr spec_devices_text)]
      [("devices", .jarr [.jobj [("id", .jstr "dev-1")], .jobj [("id", .jstr "dev-2")]])]
      [("id", .jstr "dev-1")]
      [("jsonrpc", .jstr "2.0"),
       ("result", .jobj [("content",
          .jarr [.jobj [("type", .jstr "image"), ("data", .jstr "AQID")]])]),
       ("id", .jnum 2)]
      [("content", .jarr [.jobj [("type", .jstr "image"), ("data", .jstr "AQID")]])]
      [("type", .jstr "image"), ("data", .jstr "AQID")]
      [] [.jobj [("id", .jstr "dev-2")]] []
      spec_devices_text "AQID" (.jstr "dev-1") [1, 2, 3] [("screenshot.png", [9, 9])]
      rfl rfl rfl rfl rfl rfl rfl rfl rfl rfl).2 [0, 255, 10] (by decide)⟩

/-! Claim C10.  `read_message` returns `None` on end-of-stream, and each
of the three conversation steps immediately feeds the returned value to a
key-membership test (`'error' in resp` or `'result' in resp`), which on
`None` raises `TypeError: argument of type 'NoneType' is not iterable`. -/

/-- C10 (confirmed): if the child closes its output stream at the
initialize, device-listing or capture step, the sentinel `None` returned
by `read_message` flows into a key-membership test and raises
`TypeError`; no caller handles the sentinel, so a graceful close surfaces
as a conversation failure (at the initialize step, before any further
request is sent). -/
theorem eof_sentinel_raises_type_error :
    (∀ r2 r3 fs, (mainConversation .eof r2 r3 fs).err = some .typeError ∧
        (mainConversation .eof r2 r3 fs).sent = [init_request]) ∧
    (∀ r3 fs, (mainConversation (.msg init_ok_response) .eof r3 fs).err = some .typeError) ∧
    (∀ fs, (mainConversation (.msg init_ok_response)
        (.msg (list_response_of spec_devices_text)) .eof fs).err = some .typeError) :=
  ⟨fun _ _ _ => ⟨rfl, rfl⟩, fun _ _ => rfl, fun _ => rfl⟩

/-! Sanity checks that the embedded library functions agree with their
Python counterparts on concrete values. -/

/-- Serialization check: `dumps` renders the initialize request exactly
as Python's `json.dumps` does (default separators, insertion order). -/
theorem dumps_init_request_text :
    dumps init_request =
      "\x7b\"jsonrpc\": \"2.0\", \"method\": \"initialize\", \"params\": \x7b\"clientInfo\": \x7b\"name\": \"python-script\"\x7d\x7d, \"id\": 0\x7d" := by
  decide

/-- Parsing check: `loads` decodes the specification's example device
list like `json.loads` does. -/
theorem loads_spec_devices_text :
    loads spec_devices_text =
      .ok (.jobj [("devices",
        .jarr [.jobj [("id", .jstr "dev-1")], .jobj [("id", .jstr "dev-2")]])]) := by
  rfl

/-- Base64 check: encoding and decoding agree with `base64.b64encode`
and `base64.b64decode` on the RFC 4648 test vector and a padded input. -/
theorem b64_concrete_checks :
    b64encode [77, 97, 110] = "TWFu" ∧ b64decode "TWFu" = some [77, 97, 110] ∧
    b64encode [1, 2] = "AQI=" ∧ b64decode "AQI=" = some [1, 2] := by
  refine ⟨by decide, rfl, by decide, rfl⟩
